/-
Verification of the batch reconciliation service (`BatchDataService` in
`service-1.ts`, together with the SQL objects it calls, notably the stored
procedure `sp_UpdateOpenRecords`).

The TypeScript and SQL sources are shallowly embedded as Lean functions:
  - JavaScript numbers are modelled by `JSNum` (NaN, the two infinities, and
    finite values as rationals); the claims under study never depend on
    floating-point rounding, only on NaN/Infinity propagation and on exact
    values of small integers.
  - JavaScript `Date` values are modelled by `JSDate` (an invalid date, or a
    valid date carrying a millisecond timestamp).  The host's `new Date(s)`
    string parsing is a parameter `parseDate : String → Option Int`
    (`none` = the string does not parse, i.e. `new Date(s)` is an Invalid
    Date), and "the current time" is a parameter `now : Int`.
  - The SQL store is a list of `DbRow`; `BEGIN TRANSACTION` / `ROLLBACK` are
    modelled by snapshotting: the stored procedure either publishes the fully
    updated table or, on a failure (injected through a `failAt` parameter),
    restores the snapshot and rethrows, exactly as the TRY/CATCH block of
    `sp_UpdateOpenRecords` does.
  - Fallible TypeScript code returns `Except String`; a thrown exception is
    `Except.error` with the message the source builds.
-/
import Mathlib

set_option autoImplicit false

deriving instance DecidableEq for Except

namespace BatchData

/-! ## JavaScript value models -/

/-- A JavaScript number: NaN, +Infinity, -Infinity, or a finite value. -/
inductive JSNum where
  | nan
  | posInf
  | negInf
  | finite (q : ℚ)
  deriving DecidableEq, Repr

/-- JavaScript truthiness of a number: `NaN` and `0` are falsy. -/
def jsTruthy : JSNum → Bool
  | .nan => false
  | .finite q => q != 0
  | _ => true

/-- `isNaN` on a JavaScript number. -/
def jsIsNaN : JSNum → Bool
  | .nan => true
  | _ => false

/-- Finiteness of a JavaScript number (`Number.isFinite`). -/
def jsIsFinite : JSNum → Bool
  | .finite _ => true
  | _ => false

/-- A JavaScript `Date`: either an Invalid Date or a valid one with a
millisecond timestamp. -/
inductive JSDate where
  | invalid
  | valid (ms : Int)
  deriving DecidableEq, Repr

/-- JavaScript `String.prototype.trim`: drop leading and trailing whitespace.
Implemented on the character list (structurally, so that concrete instances
evaluate); agrees with the host `trim` on the ASCII strings of this
development. -/
def jsTrim (s : String) : String :=
  ⟨((s.data.dropWhile Char.isWhitespace).reverse.dropWhile
      Char.isWhitespace).reverse⟩

/-! ## Data model (`service-1.ts` interfaces) -/

/-- `ExternalApiRecord` of `service-1.ts`: the raw feed record.  Optional
fields model properties that may be `undefined` at runtime; `value` is
modelled as the JavaScript number `Number(record.value)` evaluates to
(`none` stands for an absent field, for which `Number(undefined) = NaN`). -/
structure ExternalApiRecord where
  id : Int
  name : Option String
  value : Option JSNum
  status : Option String
  lastModified : Option String
  deriving DecidableEq, Repr

/-- `RecordData` of `service-1.ts`: the canonical internal record. -/
structure RecordData where
  id : Int
  name : String
  value : JSNum
  status : String
  updatedAt : Option JSDate
  deriving DecidableEq, Repr

/-! ## Normalizer (`transformExternalData`, service-1.ts lines 320-328) -/

/-- One record of `transformExternalData`:
`name?.trim() || ''`, `Number(value) || 0`, `status?.trim() || 'Unknown'`,
`lastModified ? new Date(lastModified) : new Date()`. -/
def transformOne (parseDate : String → Option Int) (now : Int)
    (r : ExternalApiRecord) : RecordData :=
  { id := r.id
    name := match r.name with
      | none => ""
      | some s => jsTrim s
    value :=
      let n := match r.value with
        | none => JSNum.nan
        | some v => v
      if jsTruthy n then n else JSNum.finite 0
    status := match r.status with
      | none => "Unknown"
      | some s => if jsTrim s = "" then "Unknown" else jsTrim s
    updatedAt := some (match r.lastModified with
      | none => JSDate.valid now
      | some s =>
        -- a non-empty string is truthy, so `new Date(s)` runs even when
        -- `s` does not parse, producing an Invalid Date
        if s = "" then JSDate.valid now
        else match parseDate s with
          | some t => JSDate.valid t
          | none => JSDate.invalid) }

/-- `transformExternalData` (service-1.ts lines 320-328). -/
def transformExternalData (parseDate : String → Option Int) (now : Int)
    (records : List ExternalApiRecord) : List RecordData :=
  records.map (transformOne parseDate now)

/-! ## Validator (`validateRecords`, service-1.ts lines 333-374) -/

/-- JavaScript `Array.prototype.findIndex`, returned as `Option`:
`some i` is the first index satisfying the predicate, `none` plays the
role of the source's `-1`. -/
def findIdxOpt {α : Type} (p : α → Bool) : List α → Option Nat
  | [] => none
  | x :: xs => if p x then some 0 else (findIdxOpt p xs).map (· + 1)

/-- The `recordErrors` array `validateRecords` accumulates for one record,
given the records accepted so far (`validRecords`).  The checks and reason
strings appear in source order (service-1.ts lines 340-364). -/
def validationReasons (validRecords : List RecordData) (r : RecordData) :
    List String :=
  -- `!record.id || record.id <= 0` (for an integer id both reduce to ≤ 0)
  (if r.id ≤ 0 then ["Invalid or missing ID"] else [])
  -- `!record.name || record.name.length === 0`
  ++ (if r.name = "" then ["Name is required"] else [])
  -- `record.name && record.name.length > 255`
  ++ (if r.name.length > 255 then
        ["Name exceeds maximum length (255 characters)"] else [])
  -- `isNaN(record.value)`
  ++ (if jsIsNaN r.value then ["Invalid value format"] else [])
  -- `!record.status`
  ++ (if r.status = "" then ["Status is required"] else [])
  -- `validRecords.findIndex(r => r.id === record.id)`, compared to -1;
  -- note the index is the position inside `validRecords`, not the input
  ++ (match findIdxOpt (fun v => v.id == r.id) validRecords with
      | some j => ["Duplicate ID found at index " ++ toString j]
      | none => [])

/-- The `forEach` loop of `validateRecords`: `index` is the 0-based input
position, `validRecords` and `errors` the two accumulating arrays. -/
def validateRecordsAux :
    List RecordData → Nat → List RecordData → List String →
    List RecordData × List String
  | [], _, validRecords, errors => (validRecords, errors)
  | r :: rest, index, validRecords, errors =>
    let recordErrors := validationReasons validRecords r
    if recordErrors = [] then
      validateRecordsAux rest (index + 1) (validRecords ++ [r]) errors
    else
      validateRecordsAux rest (index + 1) validRecords
        (errors ++ ["Record " ++ toString (index + 1) ++ " (ID: "
          ++ toString r.id ++ "): " ++ String.intercalate ", " recordErrors])

/-- `validateRecords` (service-1.ts lines 333-374): returns the accepted
records and the collected error strings (the source mutates a caller-supplied
`errors` array that starts empty on every call path). -/
def validateRecords (records : List RecordData) :
    List RecordData × List String :=
  validateRecordsAux records 0 [] []

/-! ## The store (`YourTableName`) and the stored procedure
`sp_UpdateOpenRecords` (SQL source, part_000 lines 2-77) -/

/-- A row of `YourTableName` (part_000 lines 12-20).  `Value` is a
`DECIMAL(10,2)` column, carried here as a `JSNum` whose stored values are
finite. -/
structure DbRow where
  Id : Int
  Name : String
  Value : JSNum
  Status : String
  isOpen : Bool
  CreatedAt : Int
  UpdatedAt : JSDate
  deriving DecidableEq, Repr

/-- A row of the table-valued parameter `RecordDataType`
(part_000 lines 2-8). -/
structure TvpRow where
  Id : Int
  Name : String
  Value : JSNum
  Status : String
  UpdatedAt : JSDate
  deriving DecidableEq, Repr

/-- The statistics row returned by `sp_UpdateOpenRecords`
(part_000 lines 64-67).  All three are SQL `INT`s. -/
structure SpStats where
  UpdatedCount : Int
  SkippedCount : Int
  TotalInputRecords : Int
  deriving DecidableEq, Repr

/-- The conditional `UPDATE ... INNER JOIN @RecordData ... WHERE
target.isOpen = 1` of `sp_UpdateOpenRecords` (part_000 lines 48-56):
a target row is overwritten (fields `Name`, `Value`, `Status`, `UpdatedAt`
only) when it is open and some source row shares its `Id`.  `Id` is the
table's primary key; when the batch carries duplicate ids the first matching
source row stands in for SQL's unspecified choice. -/
def sp_applyUpdate (db : List DbRow) (source : List TvpRow) : List DbRow :=
  db.map (fun target =>
    if target.isOpen then
      match source.find? (fun s => s.Id == target.Id) with
      | some s =>
        { target with Name := s.Name, Value := s.Value,
                      Status := s.Status, UpdatedAt := s.UpdatedAt }
      | none => target
    else target)

/-- `@@ROWCOUNT` of that `UPDATE` (part_000 line 58): the number of target
rows matched by the join under the `isOpen` predicate. -/
def sp_updatedCount (db : List DbRow) (source : List TvpRow) : Nat :=
  (db.filter (fun t => t.isOpen && source.any (fun s => s.Id == t.Id))).length

/-- `sp_UpdateOpenRecords` (part_000 lines 31-77).  `failAt = some k` injects
a store failure in which the `UPDATE` dies after mutating `k` rows: the
partial state exists only inside the transaction; the `CATCH` block rolls the
transaction back (the visible table is the snapshot taken at
`BEGIN TRANSACTION`) and rethrows (`THROW`).  `failAt = none` is the
failure-free run: the whole batch is applied and committed, and the
statistics row `(UpdatedCount, SkippedCount = TotalInputRecords -
UpdatedCount, TotalInputRecords)` is returned. -/
def sp_UpdateOpenRecords (failAt : Option Nat) (db : List DbRow)
    (source : List TvpRow) : List DbRow × Except String SpStats :=
  match failAt with
  | some k =>
    let _insideTransaction := sp_applyUpdate (db.take k) source ++ db.drop k
    (db, Except.error "store operation failure")
  | none =>
    let updated : Int := sp_updatedCount db source
    (sp_applyUpdate db source,
     Except.ok ⟨updated, (source.length : Int) - updated, source.length⟩)

/-! ## Reconciler (`updateOpenRecords`, service-1.ts lines 38-149) -/

/-- The per-record formatting and validation loop of `updateOpenRecords`
(service-1.ts lines 70-98) that fills the table-valued parameter.  On Lean
integers `parseInt(record.id?.toString() || '0')` is the identity, as is
`parseFloat(record.value?.toString() || '0')` on the `JSNum` model (`NaN`
and the infinities round-trip through their string forms).  A failed check
throws, aborting the whole loop with the message
`Invalid data in record ${index + 1}: ...`. -/
def buildTvpRowsAux (now : Int) :
    List RecordData → Nat → Except String (List TvpRow)
  | [], _ => Except.ok []
  | r :: rest, index =>
    let id := r.id
    let name := jsTrim r.name
    let value := r.value
    let status := jsTrim r.status
    let updatedAt := match r.updatedAt with
      | some d => d
      | none => JSDate.valid now
    if id ≤ 0 then
      Except.error ("Invalid data in record " ++ toString (index + 1)
        ++ ": Invalid ID: " ++ toString r.id)
    else if name = "" then
      Except.error ("Invalid data in record " ++ toString (index + 1)
        ++ ": Empty name for record ID: " ++ toString id)
    else if jsIsNaN value then
      Except.error ("Invalid data in record " ++ toString (index + 1)
        ++ ": Invalid value for record ID: " ++ toString id)
    else if status = "" then
      Except.error ("Invalid data in record " ++ toString (index + 1)
        ++ ": Empty status for record ID: " ++ toString id)
    else
      match buildTvpRowsAux now rest (index + 1) with
      | Except.ok rows => Except.ok (⟨id, name, value, status, updatedAt⟩ :: rows)
      | Except.error e => Except.error e

/-- The table parameter built from the input batch (0-based loop). -/
def buildTvpRows (now : Int) (records : List RecordData) :
    Except String (List TvpRow) :=
  buildTvpRowsAux now records 0

/-- The `{updated, skipped}` result of `updateOpenRecords`. -/
structure UpdateResult where
  updated : Int
  skipped : Int
  deriving DecidableEq, Repr

/-- `updateOpenRecords` (service-1.ts lines 38-149).  The input is
`Option (List RecordData)` so that the `!records` (null) guard of line 42 is
representable; `now` is the wall clock used for the `new Date()` default of
line 77.  Returns the store after the call together with the returned
statistics or the thrown error:
  - null or empty input returns `{updated: 0, skipped: 0}` with no store
    call (lines 42-45);
  - a record failing the row-formatting checks throws before any store call
    (lines 70-98);
  - otherwise `sp_UpdateOpenRecords` runs; its statistics are passed through
    (`parseInt` on the integer counters is the identity), and a store error
    is rethrown wrapped as `Failed to update records: ...` (line 147). -/
def updateOpenRecords (failAt : Option Nat) (now : Int) (db : List DbRow)
    (records : Option (List RecordData)) :
    List DbRow × Except String UpdateResult :=
  match records with
  | none => (db, Except.ok ⟨0, 0⟩)
  | some recs =>
    if recs.length = 0 then (db, Except.ok ⟨0, 0⟩)
    else
      match buildTvpRows now recs with
      | Except.error e => (db, Except.error e)
      | Except.ok rows =>
        match sp_UpdateOpenRecords failAt db rows with
        | (db', Except.ok stats) =>
          (db', Except.ok ⟨stats.UpdatedCount, stats.SkippedCount⟩)
        | (db', Except.error e) =>
          (db', Except.error ("Failed to update records: " ++ e))

/-! ## Schema preflight (`verifyDatabaseObjects`, service-1.ts
lines 154-228) -/

/-- One row of the `sys.parameters` metadata query. -/
structure SqlParam where
  name : String
  typeName : String
  deriving DecidableEq, Repr

/-- The store-side metadata the preflight queries: whether the table type
`RecordDataType` and the procedure `sp_UpdateOpenRecords` exist, and the
procedure's declared parameters. -/
structure SqlCatalog where
  tableTypeExists : Bool
  storedProcExists : Bool
  procParams : List SqlParam
  deriving DecidableEq, Repr

/-- The result of `verifyDatabaseObjects`. -/
structure VerifyResult where
  tableTypeExists : Bool
  storedProcExists : Bool
  issues : List String
  deriving DecidableEq, Repr

/-- `verifyDatabaseObjects` (service-1.ts lines 154-228): read-only metadata
checks, collecting issue strings in source order. -/
def verifyDatabaseObjects (cat : SqlCatalog) : VerifyResult :=
  let issues1 :=
    if cat.tableTypeExists then []
    else ["User-defined table type \"RecordDataType\" does not exist"]
  let issues2 :=
    if cat.storedProcExists then []
    else ["Stored procedure \"sp_UpdateOpenRecords\" does not exist"]
  let issues3 :=
    if cat.storedProcExists then
      match cat.procParams.find? (fun p => p.name == "@RecordData") with
      | none => ["Stored procedure missing @RecordData parameter"]
      | some p =>
        if p.typeName = "RecordDataType" then []
        else ["@RecordData parameter type is " ++ p.typeName
          ++ ", expected RecordDataType"]
    else []
  ⟨cat.tableTypeExists, cat.storedProcExists, issues1 ++ issues2 ++ issues3⟩

/-! ## Orchestrator (`fetchAndUpdateRecords`, service-1.ts lines 233-315) -/

/-- The report `fetchAndUpdateRecords` resolves with. -/
structure Report where
  fetched : Int
  updated : Int
  skipped : Int
  errors : List String
  deriving DecidableEq, Repr

/-- `fetchAndUpdateRecords` (service-1.ts lines 233-315) for a fetch that
returned the array `raw` (transport failures and non-array bodies throw
before the pipeline and are outside this model).  Steps in source order:
preflight (short-circuiting with `fetched = updated = skipped = 0` and the
issues as `errors`, before the fetch and before any store call), transform,
validate, the empty-valid-batch short circuit, then the store update, whose
statistics are merged as `skipped = store.skipped + (fetched -
validCount)`.  A store-side throw is caught and resurfaced as the generic
`Failed to fetch and update records` HTTP 500 (line 313). -/
def fetchAndUpdateRecords (cat : SqlCatalog)
    (parseDate : String → Option Int) (now : Int) (failAt : Option Nat)
    (db : List DbRow) (raw : List ExternalApiRecord) :
    List DbRow × Except String Report :=
  let verification := verifyDatabaseObjects cat
  if verification.issues.length > 0 then
    (db, Except.ok ⟨0, 0, 0, verification.issues⟩)
  else
    let transformedRecords := transformExternalData parseDate now raw
    let v := validateRecords transformedRecords
    let validRecords := v.1
    let errors := v.2
    if validRecords.length = 0 then
      (db, Except.ok ⟨raw.length, 0, raw.length, errors⟩)
    else
      match updateOpenRecords failAt now db (some validRecords) with
      | (db', Except.ok st) =>
        (db', Except.ok ⟨raw.length, st.updated,
          st.skipped + ((raw.length : Int) - validRecords.length), errors⟩)
      | (db', Except.error _) =>
        (db', Except.error "Failed to fetch and update records")

/-! ## Helper lemmas -/

lemma findIdxOpt_eq_none_iff {α : Type} (p : α → Bool) (l : List α) :
    findIdxOpt p l = none ↔ ∀ x ∈ l, p x = false := by
  induction l with
  | nil => simp [findIdxOpt]
  | cons x xs ih =>
    by_cases h : p x
    · simp [findIdxOpt, h]
    · simp [findIdxOpt, h, Option.map_eq_none', ih]

/-- When `validateRecords` accepts a record (its `recordErrors` array is
empty), every individual check passed. -/
lemma validationReasons_nil {validRecords : List RecordData} {r : RecordData}
    (h : validationReasons validRecords r = []) :
    ¬r.id ≤ 0 ∧ r.name ≠ "" ∧ jsIsNaN r.value = false ∧ r.status ≠ ""
      ∧ findIdxOpt (fun v => v.id == r.id) validRecords = none := by
  rw [validationReasons] at h
  simp only [List.append_eq_nil] at h
  obtain ⟨⟨⟨⟨⟨h1, h2⟩, h3⟩, h4⟩, h5⟩, h6⟩ := h
  refine ⟨?_, ?_, ?_, ?_, ?_⟩
  · intro hc; rw [if_pos hc] at h1; exact List.cons_ne_nil _ _ h1
  · intro hc; rw [if_pos hc] at h2; exact List.cons_ne_nil _ _ h2
  · by_contra hc
    rw [if_pos (by revert hc; cases jsIsNaN r.value <;> simp)] at h4
    exact List.cons_ne_nil _ _ h4
  · intro hc; rw [if_pos hc] at h5; exact List.cons_ne_nil _ _ h5
  · cases hF : findIdxOpt (fun v => v.id == r.id) validRecords with
    | none => rfl
    | some j => rw [hF] at h6; exact absurd h6 (List.cons_ne_nil _ _)

/-- The accepted partition never picks up a duplicate id: the invariant of
the `validRecords` accumulator of `validateRecordsAux`. -/
lemma validateRecordsAux_nodup (records : List RecordData) :
    ∀ (index : Nat) (validRecords : List RecordData) (errors : List String),
      (validRecords.map (fun v => v.id)).Nodup →
      (((validateRecordsAux records index validRecords errors).1).map
        (fun v => v.id)).Nodup := by
  induction records with
  | nil => intro index validRecords errors h; simpa [validateRecordsAux] using h
  | cons r rest ih =>
    intro index validRecords errors h
    rw [validateRecordsAux]
    by_cases hE : validationReasons validRecords r = []
    · rw [if_pos hE]
      apply ih
      have h5 := (validationReasons_nil hE).2.2.2.2
      have hnot : r.id ∉ validRecords.map (fun v => v.id) := by
        intro hmem
        rw [List.mem_map] at hmem
        obtain ⟨v, hv, hid⟩ := hmem
        have hfalse := (findIdxOpt_eq_none_iff _ validRecords).1 h5 v hv
        rw [hid] at hfalse
        simp at hfalse
      have hconcat : ((validRecords ++ [r]).map (fun v => v.id))
          = (validRecords.map (fun v => v.id)).concat r.id := by
        simp [List.concat_eq_append]
      rw [hconcat]
      exact List.Nodup.concat hnot h
    · rw [if_neg hE]
      exact ih _ _ _ h

/-- The accepted partition never contains a NaN value: the invariant of the
`validRecords` accumulator of `validateRecordsAux`. -/
lemma validateRecordsAux_not_nan (records : List RecordData) :
    ∀ (index : Nat) (validRecords : List RecordData) (errors : List String),
      (∀ v ∈ validRecords, jsIsNaN v.value = false) →
      ∀ v ∈ (validateRecordsAux records index validRecords errors).1,
        jsIsNaN v.value = false := by
  induction records with
  | nil =>
    intro index validRecords errors h
    simpa [validateRecordsAux] using h
  | cons r rest ih =>
    intro index validRecords errors h
    rw [validateRecordsAux]
    by_cases hE : validationReasons validRecords r = []
    · rw [if_pos hE]
      apply ih
      intro v hv
      rcases List.mem_append.1 hv with hv' | hv'
      · exact h v hv'
      · rw [List.mem_singleton.1 hv']
        exact (validationReasons_nil hE).2.2.1
    · rw [if_neg hE]
      exact ih _ _ _ h

/-- The table parameter holds one row per input record. -/
lemma buildTvpRowsAux_length (now : Int) (records : List RecordData) :
    ∀ (index : Nat) (rows : List TvpRow),
      buildTvpRowsAux now records index = Except.ok rows →
      rows.length = records.length := by
  induction records with
  | nil =>
    intro index rows h
    rw [buildTvpRowsAux] at h
    cases h
    rfl
  | cons r rest ih =>
    intro index rows h
    rw [buildTvpRowsAux] at h
    split_ifs at h
    cases hrec : buildTvpRowsAux now rest (index + 1) with
    | error e => rw [hrec] at h; cases h
    | ok rows' =>
      rw [hrec] at h
      cases h
      simp [ih _ _ hrec]

/-- The duplicate-id diagnostic is never the invalid-value diagnostic,
whatever index it carries. -/
lemma dup_index_msg_ne (j : Nat) :
    ("Duplicate ID found at index " ++ toString j) ≠ "Invalid value format" := by
  intro h
  have h2 := congrArg String.data h
  rw [String.data_append] at h2
  simp at h2

/-- Membership in a conditional singleton forces equality with the
singleton's element. -/
lemma mem_if_singleton {c : Prop} [Decidable c] {s t : String}
    (h : t ∈ if c then [s] else ([] : List String)) : t = s := by
  revert h
  split
  · exact fun h => List.mem_singleton.1 h
  · exact fun h => absurd h (List.not_mem_nil t)

/-- The invalid-value reason appears among a record's validation reasons only
when its value is NaN. -/
lemma invalid_value_reason_mem {validRecords : List RecordData}
    {r : RecordData}
    (h : "Invalid value format" ∈ validationReasons validRecords r) :
    jsIsNaN r.value = true := by
  cases hnan : jsIsNaN r.value with
  | true => rfl
  | false =>
    exfalso
    rw [validationReasons] at h
    simp only [List.mem_append] at h
    rcases h with ((((hA | hB) | hC) | hD) | hE) | hF
    · exact absurd (mem_if_singleton hA) (by decide)
    · exact absurd (mem_if_singleton hB) (by decide)
    · exact absurd (mem_if_singleton hC) (by decide)
    · simp [hnan] at hD
    · exact absurd (mem_if_singleton hE) (by decide)
    · cases hFi : findIdxOpt (fun v => v.id == r.id) validRecords with
      | none => rw [hFi] at hF; exact absurd hF (List.not_mem_nil _)
      | some j =>
        rw [hFi] at hF
        exact dup_index_msg_ne j (List.mem_singleton.1 hF).symm

/-- `updateOpenRecords` statistics always balance against the batch length
(the stored procedure computes `SkippedCount` as
`TotalInputRecords - UpdatedCount`, and the early empty return is `0/0`). -/
lemma updateOpenRecords_stats {failAt : Option Nat} {now : Int}
    {db db' : List DbRow} {recs : List RecordData} {st : UpdateResult}
    (h : updateOpenRecords failAt now db (some recs) = (db', Except.ok st)) :
    st.updated + st.skipped = recs.length := by
  rw [updateOpenRecords] at h
  by_cases hlen : recs.length = 0
  · rw [if_pos hlen] at h
    injection h with h1 h2
    injection h2 with h3
    rw [← h3, hlen]
    rfl
  · rw [if_neg hlen] at h
    cases hb : buildTvpRows now recs with
    | error e => rw [hb] at h; cases h
    | ok rows =>
      rw [hb] at h
      cases failAt with
      | some k => simp only [sp_UpdateOpenRecords] at h; cases h
      | none =>
        simp only [sp_UpdateOpenRecords] at h
        injection h with h1 h2
        injection h2 with h3
        rw [← h3]
        have hlen' := buildTvpRowsAux_length now recs 0 rows hb
        simp only [← hlen']
        omega

/-! ## Concrete fixtures used by witnesses and counterexamples -/

/-- A date parser under which no string parses.  It stands for the host's
`new Date(s)` on the strings used below (such as `"not-a-date"`), none of
which the host can parse either. -/
def noParse : String → Option Int := fun _ => none

/-- A closed store row (`isOpen = 0`). -/
def closedRow : DbRow :=
  ⟨5, "Old", JSNum.finite 1, "Closed", false, 0, JSDate.valid 0⟩

/-- An open store row (`isOpen = 1`). -/
def openRow : DbRow :=
  ⟨6, "Old6", JSNum.finite 2, "Open", true, 0, JSDate.valid 0⟩

/-- A batch record targeting the closed row. -/
def recFive : RecordData :=
  ⟨5, "New", JSNum.finite 9, "Active", some (JSDate.valid 7)⟩

/-- A batch record targeting the open row. -/
def recSix : RecordData :=
  ⟨6, "New6", JSNum.finite 8, "Active", some (JSDate.valid 7)⟩

/-- A catalog in which both database objects exist with the expected
parameter. -/
def goodCatalog : SqlCatalog :=
  ⟨true, true, [⟨"@RecordData", "RecordDataType"⟩]⟩

/-- A catalog missing the stored procedure. -/
def badCatalog : SqlCatalog := ⟨true, false, []⟩

/-- The first raw record of the spec's duplicate-id scenario. -/
def rawOne : ExternalApiRecord :=
  ⟨1, some "A", some (JSNum.finite 10), some "Active", none⟩

/-- The second raw record of the spec's duplicate-id scenario (same id). -/
def rawDupB : ExternalApiRecord :=
  ⟨1, some "B", some (JSNum.finite 20), some "Active", none⟩

/-- A raw record whose value is `Infinity`. -/
def rawInf : ExternalApiRecord :=
  ⟨7, some "Inf", some JSNum.posInf, some "Active", none⟩

/-- A raw record whose `lastModified` is a non-empty unparsable string. -/
def rawBadDate : ExternalApiRecord :=
  ⟨1, some "A", some (JSNum.finite 10), some "Active", some "not-a-date"⟩

/-- A raw record targeting the open row. -/
def rawSix : ExternalApiRecord :=
  ⟨6, some "N6", some (JSNum.finite 3), some "Active", none⟩

/-! ## Claim theorems -/

/-- An update batch leaves every closed row of the table untouched, at its
position, with every field intact. -/
lemma sp_applyUpdate_closed {db : List DbRow} {source : List TvpRow}
    {i : Nat} {t : DbRow}
    (hrow : db[i]? = some t) (hclosed : t.isOpen = false) :
    (sp_applyUpdate db source)[i]? = some t := by
  rw [sp_applyUpdate, List.getElem?_map, hrow]
  simp [hclosed]

/-- The store visible after any `updateOpenRecords` call is either the
original table (early return, row-formatting throw, or store failure with
rollback) or the table with the batch fully applied. -/
lemma updateOpenRecords_db_eq (failAt : Option Nat) (now : Int)
    (db : List DbRow) (records : Option (List RecordData)) :
    (updateOpenRecords failAt now db records).1 = db
    ∨ ∃ rows, (updateOpenRecords failAt now db records).1
        = sp_applyUpdate db rows := by
  cases records with
  | none => exact Or.inl rfl
  | some recs =>
    rw [updateOpenRecords]
    by_cases hlen : recs.length = 0
    · rw [if_pos hlen]
      exact Or.inl rfl
    · rw [if_neg hlen]
      cases hb : buildTvpRows now recs with
      | error e => exact Or.inl rfl
      | ok rows =>
        cases failAt with
        | some k => exact Or.inl rfl
        | none => exact Or.inr ⟨rows, rfl⟩

/-- C1: for every batch submitted to the bulk update (`sp_UpdateOpenRecords`
via `updateOpenRecords`), only store rows whose `isOpen` flag is true are
mutated; every row with `isOpen` false — whether or not its id appears in
the batch — keeps all of its fields (including `isOpen`) unchanged after the
run, whichever path the call takes. -/
theorem updateOpenRecords_closed_rows_unchanged (failAt : Option Nat)
    (now : Int) (db : List DbRow) (records : Option (List RecordData))
    (i : Nat) (t : DbRow)
    (hrow : db[i]? = some t) (hclosed : t.isOpen = false) :
    (updateOpenRecords failAt now db records).1[i]? = some t := by
  rcases updateOpenRecords_db_eq failAt now db records with h | ⟨rows, h⟩
  · rw [h]
    exact hrow
  · rw [h]
    exact sp_applyUpdate_closed hrow hclosed

/-- C1 witness: a concrete run over a table holding a closed row with id 5
and an open row with id 6, with a batch naming both ids, leaves the closed
row untouched. -/
theorem updateOpenRecords_closed_rows_unchanged_witness :
    (updateOpenRecords none 0 [closedRow, openRow]
      (some [recFive, recSix])).1[0]? = some closedRow :=
  updateOpenRecords_closed_rows_unchanged none 0 [closedRow, openRow]
    (some [recFive, recSix]) 0 closedRow (by rfl) (by rfl)

/-- C2: the bulk update is atomic.  For a non-empty batch: any store failure
(injected at any point `k` of the `UPDATE`) causes the transaction to roll
back — the visible table is exactly the initial one — and an error
propagates to the caller; and any successful call leaves the table with the
whole batch applied and the stored procedure's statistics committed
(`UpdatedCount` = rows matched while open, `SkippedCount` =
`TotalInputRecords - UpdatedCount`).  No partial state is ever visible. -/
theorem updateOpenRecords_atomic (now : Int) (db : List DbRow)
    (recs : List RecordData) (hne : recs ≠ []) :
    (∀ k, ∃ e, updateOpenRecords (some k) now db (some recs)
        = (db, Except.error e))
    ∧ ∀ db' st,
        updateOpenRecords none now db (some recs) = (db', Except.ok st) →
        ∃ rows, buildTvpRows now recs = Except.ok rows
          ∧ db' = sp_applyUpdate db rows
          ∧ st = ⟨(sp_updatedCount db rows : Int),
              (rows.length : Int) - (sp_updatedCount db rows : Int)⟩ := by
  have hlen : ¬recs.length = 0 := by
    simpa [List.length_eq_zero] using hne
  constructor
  · intro k
    rw [updateOpenRecords]
    rw [if_neg hlen]
    cases hb : buildTvpRows now recs with
    | error e => exact ⟨e, rfl⟩
    | ok rows =>
      exact ⟨"Failed to update records: store operation failure", rfl⟩
  · intro db' st h
    rw [updateOpenRecords] at h
    rw [if_neg hlen] at h
    cases hb : buildTvpRows now recs with
    | error e =>
      rw [hb] at h
      injection h with h1 h2
      cases h2
    | ok rows =>
      rw [hb] at h
      simp only [sp_UpdateOpenRecords] at h
      injection h with h1 h2
      injection h2 with h3
      exact ⟨rows, rfl, h1.symm, h3.symm⟩

/-- C2 witness: with a store failure injected after 0 rows, a concrete
two-record batch leaves the two-row table exactly as it was and surfaces an
error. -/
theorem updateOpenRecords_atomic_witness :
    ∃ e, updateOpenRecords (some 0) 0 [closedRow, openRow]
      (some [recFive, recSix]) = ([closedRow, openRow], Except.error e) :=
  (updateOpenRecords_atomic 0 [closedRow, openRow] [recFive, recSix]
    (by decide)).1 0

/-- C3: whenever `fetchAndUpdateRecords` resolves (returns a report instead
of throwing), the report satisfies `updated + skipped = fetched`: the
validation rejects and the store-side misses both land in `skipped`. -/
theorem fetchAndUpdateRecords_count (cat : SqlCatalog)
    (parseDate : String → Option Int) (now : Int) (failAt : Option Nat)
    (db db' : List DbRow) (raw : List ExternalApiRecord) (rep : Report)
    (h : fetchAndUpdateRecords cat parseDate now failAt db raw
      = (db', Except.ok rep)) :
    rep.updated + rep.skipped = rep.fetched := by
  rw [fetchAndUpdateRecords] at h
  by_cases hv : (verifyDatabaseObjects cat).issues.length > 0
  · rw [if_pos hv] at h
    injection h with h1 h2
    injection h2 with h3
    rw [← h3]
    simp
  · rw [if_neg hv] at h
    simp only [] at h
    by_cases hlen :
        ((validateRecords (transformExternalData parseDate now raw)).1).length
          = 0
    · rw [if_pos hlen] at h
      injection h with h1 h2
      injection h2 with h3
      rw [← h3]
      simp
    · rw [if_neg hlen] at h
      rcases hu : updateOpenRecords failAt now db
          (some (validateRecords (transformExternalData parseDate now raw)).1)
        with ⟨db'', res⟩
      rw [hu] at h
      cases res with
      | error e =>
        injection h with h1 h2
        cases h2
      | ok st =>
        injection h with h1 h2
        injection h2 with h3
        have hst := updateOpenRecords_stats hu
        rw [← h3]
        simp only []
        omega

/-- C3 witness: a concrete two-record run over a table with one closed and
one open row updates one record, skips one, and the report balances. -/
theorem fetchAndUpdateRecords_count_witness :
    (⟨2, 1, 1, []⟩ : Report).updated + (⟨2, 1, 1, []⟩ : Report).skipped
      = (⟨2, 1, 1, []⟩ : Report).fetched :=
  fetchAndUpdateRecords_count goodCatalog noParse 0 none [closedRow, openRow]
    [closedRow, ⟨6, "N6", JSNum.finite 3, "Active", true, 0, JSDate.valid 0⟩]
    [rawOne, rawSix] ⟨2, 1, 1, []⟩ (by decide)

/-- C4 counterexample: when the first occurrence of an id is itself rejected
(here for an empty name), a later occurrence of the same id IS accepted —
refuting "every later occurrence of a repeated id is rejected".  The
duplicate check compares only against already-accepted records. -/
theorem validateRecords_second_occurrence_accepted :
    (validateRecords [⟨1, "", JSNum.finite 0, "Active", none⟩,
        ⟨1, "B", JSNum.finite 1, "Active", none⟩]).1
      = [⟨1, "B", JSNum.finite 1, "Active", none⟩]
    ∧ (⟨1, "", JSNum.finite 0, "Active", none⟩ : RecordData).id
      = (⟨1, "B", JSNum.finite 1, "Active", none⟩ : RecordData).id := by
  decide

/-- C4 (amended): the Validator never places two records with the same id
into the accepted partition; a record is rejected as a duplicate exactly when
an earlier occurrence of its id was accepted, so if every earlier occurrence
of the id was rejected the record remains eligible. -/
theorem validateRecords_accepted_ids_nodup (records : List RecordData) :
    (((validateRecords records).1).map (fun v => v.id)).Nodup :=
  validateRecordsAux_nodup records 0 [] [] (by simp)

/-- C5 counterexample: with the stored procedure missing from the catalog and
a one-record feed, the run resolves with `skipped = 0`, not
`skipped = len(input) = 1` — the fetch never happens on the preflight-failure
path, so nothing is counted as skipped. -/
theorem fetchAndUpdateRecords_preflight_skip_count :
    fetchAndUpdateRecords badCatalog noParse 0 none [] [rawOne]
      = ([], Except.ok ⟨0, 0, 0,
          ["Stored procedure \"sp_UpdateOpenRecords\" does not exist"]⟩)
    ∧ (0 : Int) ≠ (([rawOne] : List ExternalApiRecord).length : Int) := by
  decide

/-- C5 (amended): when preflight reports any issue, `fetchAndUpdateRecords`
returns `fetched = 0`, `updated = 0`, `skipped = 0` (not the input length:
the feed is never fetched), with the preflight issues copied into `errors`,
and the store is untouched — no store-mutating call is attempted. -/
theorem fetchAndUpdateRecords_preflight_short_circuit (cat : SqlCatalog)
    (parseDate : String → Option Int) (now : Int) (failAt : Option Nat)
    (db : List DbRow) (raw : List ExternalApiRecord)
    (h : (verifyDatabaseObjects cat).issues ≠ []) :
    fetchAndUpdateRecords cat parseDate now failAt db raw
      = (db, Except.ok ⟨0, 0, 0, (verifyDatabaseObjects cat).issues⟩) := by
  rw [fetchAndUpdateRecords]
  rw [if_pos (List.length_pos.2 h)]

/-- C5 witness: the short circuit at a concrete catalog missing the stored
procedure, over a non-empty store that stays untouched. -/
theorem fetchAndUpdateRecords_preflight_short_circuit_witness :
    fetchAndUpdateRecords badCatalog noParse 0 none [closedRow] []
      = ([closedRow], Except.ok ⟨0, 0, 0,
          ["Stored procedure \"sp_UpdateOpenRecords\" does not exist"]⟩) :=
  fetchAndUpdateRecords_preflight_short_circuit badCatalog noParse 0 none
    [closedRow] [] (by decide)

/-- C6 counterexample: on the spec's duplicate-id scenario the second record
is rejected with the reason "Duplicate ID found at index 0" — the 0-based
position of the matching record inside the accepted array — not
"Duplicate ID found at index 1" as the claim states. -/
theorem validateRecords_duplicate_index_message :
    validateRecords (transformExternalData noParse 0 [rawOne, rawDupB])
      = ([⟨1, "A", JSNum.finite 10, "Active", some (JSDate.valid 0)⟩],
         ["Record 2 (ID: 1): Duplicate ID found at index 0"])
    ∧ "Duplicate ID found at index 1"
        ∉ validationReasons
            [⟨1, "A", JSNum.finite 10, "Active", some (JSDate.valid 0)⟩]
            (transformOne noParse 0 rawDupB) := by
  decide

/-- C6 (amended): on the input batch `[{id:1,name:"A",value:10,
status:"Active"}, {id:1,name:"B",value:20,status:"Active"}]` the Validator
accepts exactly the first record and rejects the second with the per-record
reason "Duplicate ID found at index 0" (the index names the 0-based position
of the prior accepted record with that id inside the accepted array), the
collected diagnostic being "Record 2 (ID: 1): Duplicate ID found at
index 0". -/
theorem validateRecords_duplicate_scenario :
    validateRecords (transformExternalData noParse 0 [rawOne, rawDupB])
      = ([⟨1, "A", JSNum.finite 10, "Active", some (JSDate.valid 0)⟩],
         ["Record 2 (ID: 1): Duplicate ID found at index 0"])
    ∧ validationReasons
        [⟨1, "A", JSNum.finite 10, "Active", some (JSDate.valid 0)⟩]
        (transformOne noParse 0 rawDupB)
      = ["Duplicate ID found at index 0"] := by
  decide

/-- C7 counterexample: a non-empty unparsable `lastModified` (here
"not-a-date", which the host's `new Date` cannot parse, modelled by
`noParse`) yields an Invalid Date as `updatedAt`, not the normalization-time
timestamp. -/
theorem transformExternalData_unparsable_date :
    (transformExternalData noParse 0 [rawBadDate]).map (fun r => r.updatedAt)
      = [some JSDate.invalid]
    ∧ some JSDate.invalid ≠ some (JSDate.valid 0) := by
  decide

/-- C7 (amended): the Normalizer falls back to the normalization-time
timestamp only when the source timestamp field is absent or the empty string
(the two falsy cases); a non-empty unparsable `lastModified` produces an
Invalid Date instead. -/
theorem transformOne_updatedAt (parseDate : String → Option Int) (now : Int)
    (r : ExternalApiRecord) :
    ((r.lastModified = none ∨ r.lastModified = some "") →
      (transformOne parseDate now r).updatedAt = some (JSDate.valid now))
    ∧ (∀ s, r.lastModified = some s → s ≠ "" → parseDate s = none →
      (transformOne parseDate now r).updatedAt = some JSDate.invalid)
    ∧ (∀ s t, r.lastModified = some s → s ≠ "" → parseDate s = some t →
      (transformOne parseDate now r).updatedAt = some (JSDate.valid t)) := by
  refine ⟨?_, ?_, ?_⟩
  · rintro (h | h) <;> simp [transformOne, h]
  · intro s hs hne hp
    simp [transformOne, hs, hne, hp]
  · intro s t hs hne hp
    simp [transformOne, hs, hne, hp]

/-- C7 witness: with the timestamp absent the `updatedAt` is the
normalization time, and with the unparsable "not-a-date" it is the Invalid
Date. -/
theorem transformOne_updatedAt_witness :
    (transformOne noParse 5 rawOne).updatedAt = some (JSDate.valid 5)
    ∧ (transformOne noParse 5 rawBadDate).updatedAt = some JSDate.invalid :=
  ⟨(transformOne_updatedAt noParse 5 rawOne).1 (Or.inl rfl),
   (transformOne_updatedAt noParse 5 rawBadDate).2.1 "not-a-date" rfl
     (by decide) rfl⟩

/-- C8 counterexample: a raw record whose value is `Infinity` flows through
the Normalizer unchanged (`Infinity` is truthy) and through the Validator
unrejected (`isNaN(Infinity)` is false), so the accepted partition — and
hence the Reconciler's input — holds a non-finite value. -/
theorem validateRecords_accepts_infinite_value :
    validateRecords (transformExternalData noParse 0 [rawInf])
      = ([⟨7, "Inf", JSNum.posInf, "Active", some (JSDate.valid 0)⟩], [])
    ∧ jsIsFinite JSNum.posInf = false := by
  decide

/-- C8 (amended): every record the Validator accepts has a value that is not
NaN; finiteness, however, is not guaranteed — `Infinity` and `-Infinity`
pass every check. -/
theorem validateRecords_accepted_value_not_nan (records : List RecordData)
    (r : RecordData) (h : r ∈ (validateRecords records).1) :
    jsIsNaN r.value = false :=
  validateRecordsAux_not_nan records 0 [] [] (by simp) r h

/-- C8 witness: a concrete accepted record with a finite value is not NaN. -/
theorem validateRecords_accepted_value_not_nan_witness :
    jsIsNaN (⟨1, "A", JSNum.finite 10, "Active", none⟩ : RecordData).value
      = false :=
  validateRecords_accepted_value_not_nan
    [⟨1, "A", JSNum.finite 10, "Active", none⟩]
    ⟨1, "A", JSNum.finite 10, "Active", none⟩ (by decide)

/-- The Normalizer's `Number(record.value) || 0` coercion never leaves NaN in
the canonical record: NaN (from a missing or non-numeric source value) is
falsy, so it is replaced by 0. -/
lemma transformOne_value_not_nan (parseDate : String → Option Int)
    (now : Int) (raw : ExternalApiRecord) :
    jsIsNaN (transformOne parseDate now raw).value = false := by
  have hval : (transformOne parseDate now raw).value
      = (let n := match raw.value with
          | none => JSNum.nan
          | some v => v
         if jsTruthy n then n else JSNum.finite 0) := rfl
  rw [hval]
  cases hv : raw.value with
  | none => simp [jsTruthy, jsIsNaN]
  | some v =>
    cases v with
    | nan => simp [jsTruthy, jsIsNaN]
    | posInf => simp [jsTruthy]; rfl
    | negInf => simp [jsTruthy]; rfl
    | finite q =>
      by_cases hq : q = 0
      · simp [jsTruthy, jsIsNaN, hq]
      · simp [jsTruthy, hq]
        rfl

/-- C9: every record produced by the Normalizer has a non-NaN value
(missing and non-numeric source values coerce to 0), so the Validator's
"Invalid value format" rejection reason can never fire for a record that
went through `transformExternalData`, whatever the accepted partition looks
like at that point. -/
theorem transformExternalData_value_never_nan
    (parseDate : String → Option Int) (now : Int)
    (raws : List ExternalApiRecord) (r : RecordData)
    (h : r ∈ transformExternalData parseDate now raws) :
    jsIsNaN r.value = false
    ∧ ∀ validRecords, "Invalid value format"
        ∉ validationReasons validRecords r := by
  have hnan : jsIsNaN r.value = false := by
    rw [transformExternalData, List.mem_map] at h
    obtain ⟨raw, _, hr⟩ := h
    rw [← hr]
    exact transformOne_value_not_nan parseDate now raw
  refine ⟨hnan, ?_⟩
  intro validRecords hmem
  have := invalid_value_reason_mem hmem
  rw [hnan] at this
  cases this

/-- C9 witness: a concrete normalized record has a non-NaN value and its
validation reasons never include the invalid-value diagnostic. -/
theorem transformExternalData_value_never_nan_witness :
    jsIsNaN (⟨1, "A", JSNum.finite 10, "Active",
        some (JSDate.valid 0)⟩ : RecordData).value = false
    ∧ "Invalid value format" ∉ validationReasons []
        ⟨1, "A", JSNum.finite 10, "Active", some (JSDate.valid 0)⟩ := by
  have h := transformExternalData_value_never_nan noParse 0 [rawOne]
    ⟨1, "A", JSNum.finite 10, "Active", some (JSDate.valid 0)⟩ (by decide)
  exact ⟨h.1, h.2 []⟩

/-- C10: called directly with a null (`none`) or empty record list,
`updateOpenRecords` returns `{updated: 0, skipped: 0}` with the store
untouched and no store call made: the result is a success for every injected
store-failure point, which could not happen if the stored procedure were
reached. -/
theorem updateOpenRecords_null_or_empty (failAt : Option Nat) (now : Int)
    (db : List DbRow) :
    updateOpenRecords failAt now db none = (db, Except.ok ⟨0, 0⟩)
    ∧ updateOpenRecords failAt now db (some []) = (db, Except.ok ⟨0, 0⟩) :=
  ⟨rfl, rfl⟩

end BatchData
